import Mathlib

/-!
# HAL_SysTick: a shallow embedding of `src/HAL_SysTick.c`

The driver manipulates three memory-mapped 32-bit registers (`CTRL`, `LOAD`,
`VAL`) and one static function pointer.  The registers are modelled as plain
32-bit storage cells: a write stores the value modulo `2^32`, a read returns
what was stored.  Unsigned C arithmetic is `Nat` arithmetic reduced modulo
`2^32`.  The only floating-point operations of the source are the conversion
of a `uint32_t` to `float` and the comparison of two such floats; a float that
arises this way is a non-negative integer, so it is represented by that
integer (`u32ToFloat`).
-/

namespace HALSysTick

/-! ## Machine arithmetic -/

/-- Modulus of `uint32_t` arithmetic. -/
def U32 : Nat := 2 ^ 32

/-- Unsigned 32-bit multiplication. -/
def u32mul (a b : Nat) : Nat := (a * b) % U32

/-- Unsigned 32-bit subtraction (wraps below zero). -/
def u32sub (a b : Nat) : Nat := (a % U32 + U32 - b % U32) % U32

/-- Bitwise complement of a 32-bit word (the C operator `~` on `unsigned long`). -/
def u32not (a : Nat) : Nat := U32 - 1 - a % U32

/-- Binary exponent of the unit in the last place of the `float` nearest to a
`uint32_t`: a binary32 significand has 24 bits, so integers below `2^24` are
exact and an integer in `[2^(23+e), 2^(24+e))` is rounded to a multiple of `2^e`. -/
def f32Exponent (n : Nat) : Nat :=
  if n < 2 ^ 24 then 0
  else if n < 2 ^ 25 then 1
  else if n < 2 ^ 26 then 2
  else if n < 2 ^ 27 then 3
  else if n < 2 ^ 28 then 4
  else if n < 2 ^ 29 then 5
  else if n < 2 ^ 30 then 6
  else if n < 2 ^ 31 then 7
  else 8

/-- Rounding of `n` to a multiple of `ulp`, to nearest, ties to the even multiple. -/
def roundHalfEven (ulp n : Nat) : Nat :=
  let q := n / ulp
  let r := n % ulp
  if 2 * r < ulp then q * ulp
  else if ulp < 2 * r then (q + 1) * ulp
  else if q % 2 = 0 then q * ulp
  else (q + 1) * ulp

/-- Conversion of a `uint32_t` to `float` (IEEE-754 binary32, round to nearest,
ties to even), as performed by the assignment to `float maxtime` and by the
usual arithmetic conversions in `timeSetUp > maxtime`.  The result is the
exact integer value of the resulting float. -/
def u32ToFloat (n : Nat) : Nat :=
  roundHalfEven (2 ^ f32Exponent n) n

/-! ## Register block and driver state -/

/-- Modelled from the spec: `HAL_Common.h` (the device header that declares the
`SysTick` register block and its masks) is not part of the sources.  The spec's
register table names the field `ENABLE` of `CTRL`; in the ARM SysTick layout it
is bit 0. -/
def SysTick_CTRL_ENABLE_Msk : Nat := 1 <<< 0

/-- Modelled from the spec: `HAL_Common.h` is not part of the sources.  The
spec's register table names the field `TICKINT` of `CTRL`; in the ARM SysTick
layout it is bit 1. -/
def SysTick_CTRL_TICKINT_Msk : Nat := 1 <<< 1

/-- Modelled from the spec: `HAL_Common.h` is not part of the sources.  The
spec's register table names the field `CLKSOURCE` of `CTRL`; in the ARM SysTick
layout it is bit 2. -/
def SysTick_CTRL_CLKSOURCE_Msk : Nat := 1 <<< 2

/-- Modelled from the spec: `HAL_Common.h` is not part of the sources.  The
spec's register table names the field `COUNTFLAG` of `CTRL`; in the ARM SysTick
layout it is bit 16. -/
def SysTick_CTRL_COUNTFLAG_Pos : Nat := 16

/-- The `MODE` enumeration of `HAL_SysTick.h`, as its integer value. -/
abbrev MODE := Nat

/-- Enumerator `DISABLE = 0`. -/
def DISABLE : MODE := 0

/-- Enumerator `ENABLE = 1`. -/
def ENABLE : MODE := 1

/-- The three registers of the `SysTick` block that the driver touches. -/
inductive Reg where
  | CTRL
  | LOAD
  | VAL
  deriving DecidableEq, Repr

/-- Driver state: the register block `SysTick->{CTRL,LOAD,VAL}` and the static
`SysTick_Interrupt_CallBack` (`none` is `NULL`, `some k` is the function
identified by `k`). -/
structure SysTick where
  CTRL : Nat
  LOAD : Nat
  VAL : Nat
  SysTick_Interrupt_CallBack : Option Nat
  deriving DecidableEq, Repr

/-- Every register holds a 32-bit value. -/
def SysTick.WF (s : SysTick) : Prop :=
  s.CTRL < U32 ∧ s.LOAD < U32 ∧ s.VAL < U32

instance (s : SysTick) : Decidable s.WF := by
  unfold SysTick.WF; exact inferInstance

/-- Store to a register: `SysTick->r = v`. -/
def SysTick.store (s : SysTick) (r : Reg) (v : Nat) : SysTick :=
  match r with
  | .CTRL => { s with CTRL := v % U32 }
  | .LOAD => { s with LOAD := v % U32 }
  | .VAL => { s with VAL := v % U32 }

/-- Execution of a function body so far: the current state and the register
stores performed, oldest first. -/
structure Run where
  st : SysTick
  trace : List (Reg × Nat)
  deriving DecidableEq, Repr

/-- Entry of a function body: nothing stored yet. -/
def Run.start (s : SysTick) : Run := ⟨s, []⟩

/-- One store statement. -/
def Run.write (x : Run) (r : Reg) (v : Nat) : Run :=
  ⟨x.st.store r v, x.trace ++ [(r, v % U32)]⟩

/-- How a call of an init function ends: it returns, it is caught in the error
loop `while (1);`, or it divides by zero (undefined behaviour in C). -/
inductive Outcome where
  | returned (x : Run)
  | halted (x : Run)
  | undefined
  deriving DecidableEq, Repr

/-! ## The driver functions -/

/-- `HAL_SYSTICK_Internal_Init` (HAL_SysTick.c:22-48).  `SystemCoreClock` is the
global `uint32_t` core-clock variable of the device header. -/
def HAL_SYSTICK_Internal_Init (SystemCoreClock timeSetUp : Nat) (s : SysTick) : Outcome :=
  if SystemCoreClock / 1000 = 0 then .undefined
  else
    let maxtime := u32ToFloat ((1 <<< 24) / (SystemCoreClock / 1000))
    if u32ToFloat timeSetUp > maxtime then
      .halted (Run.start s)
    else
      let x := Run.start s
      let x := x.write .CTRL 0
      let x := x.write .LOAD (u32sub (u32mul (SystemCoreClock / 50000) timeSetUp) 1)
      let x := x.write .VAL 0
      let x := x.write .CTRL
        (SysTick_CTRL_CLKSOURCE_Msk ||| SysTick_CTRL_ENABLE_Msk ||| SysTick_CTRL_TICKINT_Msk)
      .returned x

/-- `HAL_SYSTICK_External_Init` (HAL_SysTick.c:61-87). -/
def HAL_SYSTICK_External_Init (freq timeSetUp : Nat) (s : SysTick) : Outcome :=
  if freq = 0 then .undefined
  else
    let maxtime := u32ToFloat (u32mul ((1 <<< 24) / freq) 1000)
    if u32ToFloat timeSetUp > maxtime then
      .halted (Run.start s)
    else
      let x := Run.start s
      let x := x.write .CTRL 0
      let x := x.write .CTRL (x.st.CTRL &&& u32not SysTick_CTRL_CLKSOURCE_Msk)
      let x := x.write .LOAD (u32sub (u32mul (freq / 50000) timeSetUp) 1)
      let x := x.write .CTRL (SysTick_CTRL_ENABLE_Msk ||| SysTick_CTRL_TICKINT_Msk)
      .returned x

/-- `HAL_SYSTICK_Interrupt_Config` (HAL_SysTick.c:98-108). -/
def HAL_SYSTICK_Interrupt_Config (status : MODE) (s : SysTick) : SysTick :=
  if status = ENABLE then
    s.store .CTRL (s.CTRL ||| SysTick_CTRL_TICKINT_Msk)
  else
    s.store .CTRL (s.CTRL &&& u32not SysTick_CTRL_TICKINT_Msk)

/-- `HAL_SYSTICK_Mode` (HAL_SysTick.c:119-129). -/
def HAL_SYSTICK_Mode (status : MODE) (s : SysTick) : SysTick :=
  if status = ENABLE then
    s.store .CTRL (s.CTRL ||| SysTick_CTRL_ENABLE_Msk)
  else
    s.store .CTRL (s.CTRL &&& u32not SysTick_CTRL_ENABLE_Msk)

/-- `HAL_SYSTICK_Get_Flag` (HAL_SysTick.c:138-141). -/
def HAL_SYSTICK_Get_Flag (s : SysTick) : Nat :=
  (s.CTRL >>> SysTick_CTRL_COUNTFLAG_Pos) &&& 0x01

/-- `HAL_SYSTICK_Get_Current_Value` (HAL_SysTick.c:150-153). -/
def HAL_SYSTICK_Get_Current_Value (s : SysTick) : Nat :=
  s.VAL

/-- `HAL_SYSTICK_Set_Interrupt_Callback` (HAL_SysTick.c:164-167). -/
def HAL_SYSTICK_Set_Interrupt_Callback (call_back : Option Nat) (s : SysTick) : SysTick :=
  { s with SysTick_Interrupt_CallBack := call_back }

/-- `SysTick_Handler` (HAL_SysTick.c:176-179): one call through the stored
pointer.  The result lists the callbacks invoked; it is `none` when the pointer
is `NULL`, where the call is undefined behaviour in C. -/
def SysTick_Handler (s : SysTick) : Option (List Nat) :=
  match s.SysTick_Interrupt_CallBack with
  | none => none
  | some call_back => some [call_back]

/-- The `n` next entries of `SysTick_Handler`, one per tick interrupt.  The
callbacks are application code outside the driver and are taken not to touch
the driver state.  The result lists the callbacks invoked, oldest first; it is
`none` as soon as one entry calls through `NULL`. -/
def handlerRuns (n : Nat) (s : SysTick) : Option (List Nat) :=
  match n with
  | 0 => some []
  | n + 1 =>
    match SysTick_Handler s, handlerRuns n s with
    | some first, some rest => some (first ++ rest)
    | _, _ => none

/-- Register contents after each store of a trace that starts in `s`: one state
per store, oldest first. -/
def statesAfter (s : SysTick) : List (Reg × Nat) → List SysTick
  | [] => []
  | (r, v) :: rest => s.store r v :: statesAfter (s.store r v) rest

/-- A state used in examples: stale values in every register. -/
def staleState : SysTick :=
  { CTRL := 0x10007, LOAD := 123, VAL := 5, SysTick_Interrupt_CallBack := some 1 }

/-! ## Single-precision rounding of 32-bit integers -/

/-- The nine binades of a 32-bit integer and the unit in the last place of each. -/
theorem f32Exponent_cases (n : Nat) :
    (n < 16777216 ∧ u32ToFloat n = roundHalfEven 1 n) ∨
    (16777216 ≤ n ∧ n < 33554432 ∧ u32ToFloat n = roundHalfEven 2 n) ∨
    (33554432 ≤ n ∧ n < 67108864 ∧ u32ToFloat n = roundHalfEven 4 n) ∨
    (67108864 ≤ n ∧ n < 134217728 ∧ u32ToFloat n = roundHalfEven 8 n) ∨
    (134217728 ≤ n ∧ n < 268435456 ∧ u32ToFloat n = roundHalfEven 16 n) ∨
    (268435456 ≤ n ∧ n < 536870912 ∧ u32ToFloat n = roundHalfEven 32 n) ∨
    (536870912 ≤ n ∧ n < 1073741824 ∧ u32ToFloat n = roundHalfEven 64 n) ∨
    (1073741824 ≤ n ∧ n < 2147483648 ∧ u32ToFloat n = roundHalfEven 128 n) ∨
    (2147483648 ≤ n ∧ u32ToFloat n = roundHalfEven 256 n) := by
  unfold u32ToFloat f32Exponent
  split_ifs <;> simp_all

/-- Each binade with the interval that the rounded value stays in. -/
theorem u32ToFloat_cases (n : Nat) :
    (n < 16777216 ∧ u32ToFloat n = roundHalfEven 1 n ∧ 0 ≤ u32ToFloat n ∧ u32ToFloat n ≤ 16777216) ∨
    (16777216 ≤ n ∧ n < 33554432 ∧ u32ToFloat n = roundHalfEven 2 n ∧ 16777216 ≤ u32ToFloat n ∧ u32ToFloat n ≤ 33554432) ∨
    (33554432 ≤ n ∧ n < 67108864 ∧ u32ToFloat n = roundHalfEven 4 n ∧ 33554432 ≤ u32ToFloat n ∧ u32ToFloat n ≤ 67108864) ∨
    (67108864 ≤ n ∧ n < 134217728 ∧ u32ToFloat n = roundHalfEven 8 n ∧ 67108864 ≤ u32ToFloat n ∧ u32ToFloat n ≤ 134217728) ∨
    (134217728 ≤ n ∧ n < 268435456 ∧ u32ToFloat n = roundHalfEven 16 n ∧ 134217728 ≤ u32ToFloat n ∧ u32ToFloat n ≤ 268435456) ∨
    (268435456 ≤ n ∧ n < 536870912 ∧ u32ToFloat n = roundHalfEven 32 n ∧ 268435456 ≤ u32ToFloat n ∧ u32ToFloat n ≤ 536870912) ∨
    (536870912 ≤ n ∧ n < 1073741824 ∧ u32ToFloat n = roundHalfEven 64 n ∧ 536870912 ≤ u32ToFloat n ∧ u32ToFloat n ≤ 1073741824) ∨
    (1073741824 ≤ n ∧ n < 2147483648 ∧ u32ToFloat n = roundHalfEven 128 n ∧ 1073741824 ≤ u32ToFloat n ∧ u32ToFloat n ≤ 2147483648) ∨
    (2147483648 ≤ n ∧ u32ToFloat n = roundHalfEven 256 n ∧ 2147483648 ≤ u32ToFloat n) := by
  rcases f32Exponent_cases n with
    ⟨h1, e⟩ |
    ⟨h1, h2, e⟩ |
    ⟨h1, h2, e⟩ |
    ⟨h1, h2, e⟩ |
    ⟨h1, h2, e⟩ |
    ⟨h1, h2, e⟩ |
    ⟨h1, h2, e⟩ |
    ⟨h1, h2, e⟩ |
    ⟨h1, e⟩
  · refine Or.inl ⟨h1, e, ?_, ?_⟩ <;> rw [e] <;>
      simp only [roundHalfEven] <;> split_ifs <;> omega
  · refine Or.inr (Or.inl ⟨h1, h2, e, ?_, ?_⟩) <;> rw [e] <;>
      simp only [roundHalfEven] <;> split_ifs <;> omega
  · refine Or.inr (Or.inr (Or.inl ⟨h1, h2, e, ?_, ?_⟩)) <;> rw [e] <;>
      simp only [roundHalfEven] <;> split_ifs <;> omega
  · refine Or.inr (Or.inr (Or.inr (Or.inl ⟨h1, h2, e, ?_, ?_⟩))) <;> rw [e] <;>
      simp only [roundHalfEven] <;> split_ifs <;> omega
  · refine Or.inr (Or.inr (Or.inr (Or.inr (Or.inl ⟨h1, h2, e, ?_, ?_⟩)))) <;> rw [e] <;>
      simp only [roundHalfEven] <;> split_ifs <;> omega
  · refine Or.inr (Or.inr (Or.inr (Or.inr (Or.inr (Or.inl ⟨h1, h2, e, ?_, ?_⟩))))) <;> rw [e] <;>
      simp only [roundHalfEven] <;> split_ifs <;> omega
  · refine Or.inr (Or.inr (Or.inr (Or.inr (Or.inr (Or.inr (Or.inl ⟨h1, h2, e, ?_, ?_⟩)))))) <;> rw [e] <;>
      simp only [roundHalfEven] <;> split_ifs <;> omega
  · refine Or.inr (Or.inr (Or.inr (Or.inr (Or.inr (Or.inr (Or.inr (Or.inl ⟨h1, h2, e, ?_, ?_⟩))))))) <;> rw [e] <;>
      simp only [roundHalfEven] <;> split_ifs <;> omega
  · refine Or.inr (Or.inr (Or.inr (Or.inr (Or.inr (Or.inr (Or.inr (Or.inr ⟨h1, e, ?_⟩)))))))
    rw [e]
    simp only [roundHalfEven]
    split_ifs <;> omega

/-- Rounding to nearest is monotone. -/
theorem u32ToFloat_mono (n m : Nat) (h : n ≤ m) : u32ToFloat n ≤ u32ToFloat m := by
  rcases u32ToFloat_cases n with ⟨h1, e, l, u⟩ | ⟨h1, h2, e, l, u⟩ | ⟨h1, h2, e, l, u⟩ |
    ⟨h1, h2, e, l, u⟩ | ⟨h1, h2, e, l, u⟩ | ⟨h1, h2, e, l, u⟩ | ⟨h1, h2, e, l, u⟩ |
    ⟨h1, h2, e, l, u⟩ | ⟨h1, e, l⟩ <;>
  rcases u32ToFloat_cases m with ⟨k1, e', l', u'⟩ | ⟨k1, k2, e', l', u'⟩ |
    ⟨k1, k2, e', l', u'⟩ | ⟨k1, k2, e', l', u'⟩ | ⟨k1, k2, e', l', u'⟩ |
    ⟨k1, k2, e', l', u'⟩ | ⟨k1, k2, e', l', u'⟩ | ⟨k1, k2, e', l', u'⟩ | ⟨k1, e', l'⟩ <;>
  first
    | omega
    | (rw [e, e']; simp only [roundHalfEven]; split_ifs <;> omega)

/-- Integers up to `2^24` are representable: the conversion is exact. -/
theorem u32ToFloat_exact (n : Nat) (h : n ≤ 16777216) : u32ToFloat n = n := by
  rcases f32Exponent_cases n with ⟨h1, e⟩ | ⟨h1, h2, e⟩ | ⟨h1, h2, e⟩ | ⟨h1, h2, e⟩ |
    ⟨h1, h2, e⟩ | ⟨h1, h2, e⟩ | ⟨h1, h2, e⟩ | ⟨h1, h2, e⟩ | ⟨h1, e⟩ <;>
  rw [e] <;> simp only [roundHalfEven] <;> split_ifs <;> omega

theorem u32ToFloat_ge (n : Nat) (h : 16777216 ≤ n) : 16777216 ≤ u32ToFloat n := by
  have h0 := u32ToFloat_mono 16777216 n h
  rw [u32ToFloat_exact 16777216 (le_refl _)] at h0
  exact h0

theorem u32ToFloat_gt (n : Nat) (h : 16777218 ≤ n) : 16777218 ≤ u32ToFloat n := by
  have h0 := u32ToFloat_mono 16777218 n h
  have h1 : u32ToFloat 16777218 = 16777218 := by decide
  omega

/-- Comparison `(float) t > (float) m` for an integer bound `m` below `2^24`:
it is the integer comparison. -/
theorem u32ToFloat_gt_iff_of_small (t m : Nat) (hm : m < 16777216) :
    u32ToFloat t > u32ToFloat m ↔ t > m := by
  rw [u32ToFloat_exact m (by omega)]
  by_cases ht : t ≤ 16777216
  · rw [u32ToFloat_exact t ht]
  · have := u32ToFloat_ge t (by omega)
    omega

/-! ## Outcome of the two init functions -/

theorem internal_halted_iff (SystemCoreClock timeSetUp : Nat) (s : SysTick)
    (h : 1000 ≤ SystemCoreClock) :
    HAL_SYSTICK_Internal_Init SystemCoreClock timeSetUp s = .halted (Run.start s) ↔
      u32ToFloat timeSetUp > u32ToFloat (16777216 / (SystemCoreClock / 1000)) := by
  have h0 : SystemCoreClock / 1000 ≠ 0 := by omega
  simp only [HAL_SYSTICK_Internal_Init, if_neg h0]
  split_ifs with hc <;> simp_all

theorem external_halted_iff (freq timeSetUp : Nat) (s : SysTick) (h : 1 ≤ freq) :
    HAL_SYSTICK_External_Init freq timeSetUp s = .halted (Run.start s) ↔
      u32ToFloat timeSetUp > u32ToFloat ((16777216 / freq * 1000) % 4294967296) := by
  have h0 : freq ≠ 0 := by omega
  simp only [HAL_SYSTICK_External_Init, if_neg h0]
  split_ifs with hc <;> simp_all [u32mul, U32]

theorem u32_reload_eq (a t : Nat) :
    u32sub (u32mul a t) 1 = (a * t + 4294967295) % 4294967296 := by
  simp only [u32sub, u32mul, U32]
  omega

theorem external_returned (freq timeSetUp : Nat) (s : SysTick) (h : 1 ≤ freq)
    (hacc : ¬ u32ToFloat timeSetUp > u32ToFloat ((16777216 / freq * 1000) % 4294967296)) :
    HAL_SYSTICK_External_Init freq timeSetUp s = .returned
      (Run.write
        (Run.write
          (Run.write (Run.write (Run.start s) .CTRL 0) .CTRL
            ((Run.write (Run.start s) .CTRL 0).st.CTRL &&& u32not SysTick_CTRL_CLKSOURCE_Msk))
          .LOAD (u32sub (u32mul (freq / 50000) timeSetUp) 1))
        .CTRL (SysTick_CTRL_ENABLE_Msk ||| SysTick_CTRL_TICKINT_Msk)) := by
  have h0 : freq ≠ 0 := by omega
  have h1 : ¬ u32ToFloat timeSetUp > u32ToFloat (u32mul ((1 <<< 24) / freq) 1000) := by
    simpa [u32mul, U32] using hacc
  simp only [HAL_SYSTICK_External_Init, if_neg h0, if_neg h1]

theorem internal_returned (SystemCoreClock timeSetUp : Nat) (s : SysTick)
    (h : 1000 ≤ SystemCoreClock)
    (hacc : ¬ u32ToFloat timeSetUp > u32ToFloat (16777216 / (SystemCoreClock / 1000))) :
    HAL_SYSTICK_Internal_Init SystemCoreClock timeSetUp s = .returned
      (Run.write
        (Run.write
          (Run.write (Run.write (Run.start s) .CTRL 0) .LOAD
            (u32sub (u32mul (SystemCoreClock / 50000) timeSetUp) 1))
          .VAL 0)
        .CTRL
        (SysTick_CTRL_CLKSOURCE_Msk ||| SysTick_CTRL_ENABLE_Msk ||| SysTick_CTRL_TICKINT_Msk)) := by
  have h0 : SystemCoreClock / 1000 ≠ 0 := by omega
  have h1 : ¬ u32ToFloat timeSetUp > u32ToFloat ((1 <<< 24) / (SystemCoreClock / 1000)) := by
    simpa using hacc
  simp only [HAL_SYSTICK_Internal_Init, if_neg h0, if_neg h1]

/-! ## Bit-level facts about the `CTRL` updates -/

theorem testBit_u32not_mask (k i : Nat) (hk : k < 32) :
    (u32not (1 <<< k)).testBit i = (decide (i < 32) && decide (i ≠ k)) := by
  have hlt : u32not (1 <<< k) < 2 ^ 32 := by
    simp only [u32not, U32]; omega
  rcases Nat.lt_or_ge i 32 with hi | hi
  · interval_cases k <;> interval_cases i <;> decide
  · have : u32not (1 <<< k) < 2 ^ i :=
      lt_of_lt_of_le hlt (Nat.pow_le_pow_right (by norm_num) hi)
    rw [Nat.testBit_lt_two_pow this]
    simp; omega

theorem testBit_of_u32 (x i : Nat) (hx : x < U32) (hi : 32 ≤ i) : x.testBit i = false := by
  apply Nat.testBit_lt_two_pow
  exact lt_of_lt_of_le hx (Nat.pow_le_pow_right (by norm_num) hi)

theorem set_bit_frame (x k i : Nat) (hx : x < U32) (hk : k < 32) :
    ((x ||| 1 <<< k) % U32).testBit i = (x.testBit i || decide (i = k)) := by
  have h1 : (1 <<< k) < 2 ^ 32 := by
    rw [Nat.one_shiftLeft]; exact Nat.pow_lt_pow_right (by norm_num) hk
  have h2 : (x ||| 1 <<< k) < 2 ^ 32 := Nat.or_lt_two_pow hx h1
  rw [U32, Nat.mod_eq_of_lt h2, Nat.testBit_or, Nat.one_shiftLeft, Nat.testBit_two_pow]
  simp [eq_comm]

theorem clear_bit_frame (x k i : Nat) (hx : x < U32) (hk : k < 32) :
    ((x &&& u32not (1 <<< k)) % U32).testBit i = (x.testBit i && decide (i ≠ k)) := by
  have h2 : (x &&& u32not (1 <<< k)) < 2 ^ 32 :=
    lt_of_le_of_lt Nat.and_le_left hx
  rw [U32, Nat.mod_eq_of_lt h2, Nat.testBit_and, testBit_u32not_mask k i hk]
  rcases Nat.lt_or_ge i 32 with hi | hi
  · simp [hi]
  · rw [testBit_of_u32 x i hx hi]; simp

theorem testBit_seven (i : Nat) : Nat.testBit 7 i = decide (i = 0 ∨ i = 1 ∨ i = 2) := by
  rcases Nat.lt_or_ge i 3 with hi | hi
  · interval_cases i <;> decide
  · have : 7 < 2 ^ i := lt_of_lt_of_le (by norm_num) (Nat.pow_le_pow_right (by norm_num) hi)
    rw [Nat.testBit_lt_two_pow this]
    simp; omega

theorem testBit_three (i : Nat) : Nat.testBit 3 i = decide (i = 0 ∨ i = 1) := by
  rcases Nat.lt_or_ge i 2 with hi | hi
  · interval_cases i <;> decide
  · have : 3 < 2 ^ i := lt_of_lt_of_le (by norm_num) (Nat.pow_le_pow_right (by norm_num) hi)
    rw [Nat.testBit_lt_two_pow this]
    simp; omega

/-! ## C1: reload programmed by the external init -/

/-- At `freq = 50,000,000` and `periodSetup = 10` the reload
`(freq / 50000) * periodSetup - 1` is `9999`, and `HAL_SYSTICK_External_Init`
ends in the error loop because `(2^24 / 50000000) * 1000` is `0` in integer
arithmetic, whereas `HAL_SYSTICK_Internal_Init` with the same clock accepts the
request and stores `LOAD = 9999`. -/
theorem external_init_integer_bound_halts :
    (50000000 / 50000) * 10 - 1 = 9999 ∧
    HAL_SYSTICK_External_Init 50000000 10 staleState = .halted (Run.start staleState) ∧
    ∃ x, HAL_SYSTICK_Internal_Init 50000000 10 staleState = .returned x ∧
      x.st.LOAD = 9999 :=
  ⟨by decide, by decide, _, rfl, by decide⟩

/-- C2 (evaluation at the failing inputs): a request with `timeSetUp = 0` passes
the period check of both init functions, and the value stored in `LOAD` is
`0 - 1 = 0xFFFFFFFF`, which is not below `2^24`. -/
theorem C2_zero_period_reload_out_of_range :
    (∃ x, HAL_SYSTICK_Internal_Init 48000000 0 staleState = .returned x ∧
      x.st.LOAD = 4294967295 ∧ (Reg.LOAD, 4294967295) ∈ x.trace ∧ ¬ x.st.LOAD ≤ 2 ^ 24 - 1) ∧
    (∃ x, HAL_SYSTICK_External_Init 5000000 0 staleState = .returned x ∧
      x.st.LOAD = 4294967295 ∧ (Reg.LOAD, 4294967295) ∈ x.trace ∧ ¬ x.st.LOAD ≤ 2 ^ 24 - 1) :=
  ⟨⟨_, rfl, by decide, by decide, by decide⟩, ⟨_, rfl, by decide, by decide, by decide⟩⟩

/-! ## C3: error branch of the external init -/

/-- C3 (as stated, refuted): with `freq = 5` the bound is
`(2^24 / 5) * 1000 = 3355443000`; `periodSetup = 3355443001` exceeds it, but both
numbers convert to the same `float` (3355442944) and the call returns.  With
`freq = 1` the product `2^24 * 1000` wraps to `3892314112` in 32 bits, and
`periodSetup = 4000000000`, which is below `2^24 * 1000`, ends in the error loop. -/
theorem C3_external_error_iff_fails :
    (3355443001 < 2 ^ 32 ∧ 3355443001 > (2 ^ 24 / 5) * 1000 ∧
      ∃ x, HAL_SYSTICK_External_Init 5 3355443001 staleState = .returned x) ∧
    (4000000000 < 2 ^ 32 ∧ ¬ 4000000000 > (2 ^ 24 / 1) * 1000 ∧
      HAL_SYSTICK_External_Init 1 4000000000 staleState = .halted (Run.start staleState)) :=
  ⟨⟨by decide, by decide, _, rfl⟩, ⟨by decide, by decide, by decide⟩⟩

/-- C3 (amended): for every `freq ≥ 1000` and every `periodSetup`,
`HAL_SYSTICK_External_Init` ends in the error loop if and only if
`periodSetup > (2^24 / freq) * 1000`.  For every `freq ≥ 1` the comparison is the
one of the two numbers converted to `float`, the bound being the 32-bit product:
the error loop is entered if and only if
`float(periodSetup) > float(((2^24 / freq) * 1000) mod 2^32)`, and then
`periodSetup > ((2^24 / freq) * 1000) mod 2^32`. -/
theorem C3_external_init_error_iff (freq periodSetup : Nat) (s : SysTick)
    (hfreq : 1 ≤ freq) :
    (1000 ≤ freq →
      (HAL_SYSTICK_External_Init freq periodSetup s = .halted (Run.start s) ↔
        periodSetup > (2 ^ 24 / freq) * 1000)) ∧
    (HAL_SYSTICK_External_Init freq periodSetup s = .halted (Run.start s) ↔
      u32ToFloat periodSetup > u32ToFloat (((2 ^ 24 / freq) * 1000) % 2 ^ 32)) ∧
    (HAL_SYSTICK_External_Init freq periodSetup s = .halted (Run.start s) →
      periodSetup > ((2 ^ 24 / freq) * 1000) % 2 ^ 32) ∧
    (HAL_SYSTICK_External_Init freq periodSetup s ≠ .halted (Run.start s) →
      ∃ x, HAL_SYSTICK_External_Init freq periodSetup s = .returned x) := by
  have hiff := external_halted_iff freq periodSetup s hfreq
  norm_num only at hiff ⊢
  refine ⟨?_, hiff, ?_, ?_⟩
  · intro h1000
    have hk : 16777216 / freq ≤ 16777 := by
      have := Nat.div_le_div_left h1000 (by norm_num : 0 < 1000) (a := 16777216)
      omega
    have hmod : (16777216 / freq * 1000) % 4294967296 = 16777216 / freq * 1000 := by omega
    rw [hiff, hmod]
    exact u32ToFloat_gt_iff_of_small _ _ (by omega)
  · intro hh
    rw [hiff] at hh
    by_contra hle
    have := u32ToFloat_mono periodSetup ((16777216 / freq * 1000) % 4294967296) (by omega)
    omega
  · intro hh
    rw [Ne, hiff] at hh
    exact ⟨_, external_returned freq periodSetup s hfreq hh⟩

/-- C3 (amended), instance: at `freq = 5,000,000` the bound is `3000`;
`periodSetup = 3001` ends in the error loop and `3000 < 3001`. -/
theorem C3_external_init_error_iff_witness :
    1 ≤ 5000000 ∧ 1000 ≤ 5000000 ∧ 3001 > (2 ^ 24 / 5000000) * 1000 ∧
    HAL_SYSTICK_External_Init 5000000 3001 staleState = .halted (Run.start staleState) :=
  ⟨by decide, by decide, by decide,
    ((C3_external_init_error_iff 5000000 3001 staleState (by decide)).1 (by decide)).2
      (by decide)⟩

/-! ## C4: error branch of the internal init -/

/-- C4 (as stated, refuted): with `SystemCoreClock = 1000` the bound is
`2^24 / (1000 / 1000) = 16777216`; `timeSetUp = 16777217` exceeds it, but
converted to `float` it is `16777216` and the call returns. -/
theorem C4_internal_error_iff_fails :
    1000 ≤ 1000 ∧ 16777217 < 2 ^ 32 ∧ 16777217 > 2 ^ 24 / (1000 / 1000) ∧
    u32ToFloat 16777217 = 16777216 ∧
    ∃ x, HAL_SYSTICK_Internal_Init 1000 16777217 staleState = .returned x :=
  ⟨by decide, by decide, by decide, by decide, _, rfl⟩

/-- C4 (amended): for every `SystemCoreClock ≥ 1000` and every `timeSetUp`,
`HAL_SYSTICK_Internal_Init` ends in the error loop if and only if
`timeSetUp > 2^24 / (SystemCoreClock / 1000)`, except for the one request
`timeSetUp = 2^24 + 1` at `SystemCoreClock < 2000`, which is accepted; in
particular the equivalence holds for every `SystemCoreClock ≥ 2000`. -/
theorem C4_internal_init_error_iff (SystemCoreClock timeSetUp : Nat) (s : SysTick)
    (hclk : 1000 ≤ SystemCoreClock) :
    (HAL_SYSTICK_Internal_Init SystemCoreClock timeSetUp s = .halted (Run.start s) ↔
      (timeSetUp > 2 ^ 24 / (SystemCoreClock / 1000) ∧
        ¬ (SystemCoreClock < 2000 ∧ timeSetUp = 2 ^ 24 + 1))) ∧
    (2000 ≤ SystemCoreClock →
      (HAL_SYSTICK_Internal_Init SystemCoreClock timeSetUp s = .halted (Run.start s) ↔
        timeSetUp > 2 ^ 24 / (SystemCoreClock / 1000))) ∧
    (HAL_SYSTICK_Internal_Init SystemCoreClock timeSetUp s ≠ .halted (Run.start s) →
      ∃ x, HAL_SYSTICK_Internal_Init SystemCoreClock timeSetUp s = .returned x) := by
  have hiff := internal_halted_iff SystemCoreClock timeSetUp s hclk
  norm_num only at hiff ⊢
  have hm : 16777216 / (SystemCoreClock / 1000) ≤ 16777216 := Nat.div_le_self _ _
  have hm2 : 2000 ≤ SystemCoreClock → 16777216 / (SystemCoreClock / 1000) ≤ 8388608 := by
    intro h2
    have h3 : 2 ≤ SystemCoreClock / 1000 := by omega
    have := Nat.div_le_div_left h3 (by norm_num : 0 < 2) (a := 16777216)
    omega
  have hm1 : SystemCoreClock < 2000 → 16777216 / (SystemCoreClock / 1000) = 16777216 := by
    intro h2
    have h3 : SystemCoreClock / 1000 = 1 := by omega
    rw [h3]
  have hex := u32ToFloat_exact _ hm
  have hmain : HAL_SYSTICK_Internal_Init SystemCoreClock timeSetUp s = .halted (Run.start s) ↔
      (timeSetUp > 16777216 / (SystemCoreClock / 1000) ∧
        ¬ (SystemCoreClock < 2000 ∧ timeSetUp = 16777217)) := by
    rw [hiff, hex]
    rcases Nat.lt_or_ge timeSetUp 16777217 with ht | ht
    · rw [u32ToFloat_exact timeSetUp (by omega)]
      omega
    · rcases Nat.eq_or_lt_of_le ht with ht | ht
      · have h17 : u32ToFloat 16777217 = 16777216 := by decide
        rw [← ht, h17]
        rcases Nat.lt_or_ge SystemCoreClock 2000 with hc | hc
        · have := hm1 hc
          omega
        · have := hm2 hc
          omega
      · have := u32ToFloat_gt timeSetUp (by omega)
        omega
  refine ⟨hmain, ?_, ?_⟩
  · intro h2
    rw [hmain]
    omega
  · intro hh
    rw [Ne, hiff] at hh
    exact ⟨_, internal_returned SystemCoreClock timeSetUp s hclk hh⟩

/-- C4 (amended), instance: at `SystemCoreClock = 48,000,000` the bound is
`2^24 / 48000 = 349`; `timeSetUp = 350` ends in the error loop. -/
theorem C4_internal_init_error_iff_witness :
    1000 ≤ 48000000 ∧ 350 > 2 ^ 24 / (48000000 / 1000) ∧
    HAL_SYSTICK_Internal_Init 48000000 350 staleState = .halted (Run.start staleState) :=
  ⟨by decide, by decide,
    ((C4_internal_init_error_iff 48000000 350 staleState (by decide)).2.1 (by decide)).2
      (by decide)⟩

/-! ## C5: state after an accepted internal init -/

/-- C5: whenever `HAL_SYSTICK_Internal_Init` returns (which requires
`SystemCoreClock ≥ 1000` and an accepted `timeSetUp`), whatever the prior
register contents, the resulting state has
`LOAD = ((SystemCoreClock / 50000) * timeSetUp - 1) mod 2^32`, `VAL` has been
stored with `0`, and `CTRL` is exactly `CLKSOURCE | ENABLE | TICKINT` (bits 0, 1
and 2 set, every other bit clear); the callback is untouched. -/
theorem C5_internal_init_state (SystemCoreClock timeSetUp : Nat) (s : SysTick) (x : Run)
    (hacc : HAL_SYSTICK_Internal_Init SystemCoreClock timeSetUp s = .returned x) :
    (x.st.LOAD : Int) = (((SystemCoreClock / 50000) * timeSetUp : Nat) - 1 : Int) % 2 ^ 32 ∧
    x.st.VAL = 0 ∧ (Reg.VAL, 0) ∈ x.trace ∧
    x.st.CTRL =
      SysTick_CTRL_CLKSOURCE_Msk ||| SysTick_CTRL_ENABLE_Msk ||| SysTick_CTRL_TICKINT_Msk ∧
    (∀ i, x.st.CTRL.testBit i = decide (i = 0 ∨ i = 1 ∨ i = 2)) ∧
    x.st.SysTick_Interrupt_CallBack = s.SysTick_Interrupt_CallBack := by
  simp only [HAL_SYSTICK_Internal_Init] at hacc
  split_ifs at hacc
  injection hacc with hx
  subst hx
  refine ⟨?_, ?_, ?_, ?_, ?_, ?_⟩
  · simp only [Run.write, SysTick.store, u32_reload_eq, U32]
    generalize (SystemCoreClock / 50000) * timeSetUp = y
    norm_num
    omega
  · simp [Run.write, SysTick.store]
  · simp [Run.write, SysTick.store]
  · simp [Run.write, SysTick.store, U32, SysTick_CTRL_CLKSOURCE_Msk, SysTick_CTRL_ENABLE_Msk,
      SysTick_CTRL_TICKINT_Msk]
  · intro i
    have h7 : (Run.write (Run.write (Run.write (Run.write (Run.start s) .CTRL 0) .LOAD
        (u32sub (u32mul (SystemCoreClock / 50000) timeSetUp) 1)) .VAL 0) .CTRL
        (SysTick_CTRL_CLKSOURCE_Msk ||| SysTick_CTRL_ENABLE_Msk |||
          SysTick_CTRL_TICKINT_Msk)).st.CTRL = 7 := by
      simp [Run.write, SysTick.store, U32, SysTick_CTRL_CLKSOURCE_Msk, SysTick_CTRL_ENABLE_Msk,
        SysTick_CTRL_TICKINT_Msk]
    rw [h7]
    exact testBit_seven i
  · simp [Run.write, SysTick.store, Run.start]

/-- C5, instance: with `SystemCoreClock = 48,000,000` and `timeSetUp = 100`
(bound `349`) the call returns from a state with stale registers, with
`LOAD = 960 * 100 - 1`, `VAL = 0` and `CTRL = 7`. -/
theorem C5_internal_init_state_witness :
    ∃ x, HAL_SYSTICK_Internal_Init 48000000 100 staleState = .returned x ∧
      staleState.VAL = 5 ∧ staleState.CTRL = 0x10007 ∧
      (x.st.LOAD : Int) = (((48000000 / 50000) * 100 : Nat) - 1 : Int) % 2 ^ 32 ∧
      x.st.VAL = 0 ∧ x.st.CTRL = 7 :=
  ⟨_, rfl, by decide, by decide,
    (C5_internal_init_state 48000000 100 staleState _ rfl).1,
    (C5_internal_init_state 48000000 100 staleState _ rfl).2.1,
    (C5_internal_init_state 48000000 100 staleState _ rfl).2.2.2.1⟩

/-! ## C6: `CTRL` after an accepted external init -/

/-- C6: whenever `HAL_SYSTICK_External_Init` returns, whatever the prior value of
`CTRL`, the resulting `CTRL` is exactly `ENABLE | TICKINT`: `CLKSOURCE` is 0,
`ENABLE` and `TICKINT` are 1, and no other bit is set. -/
theorem C6_external_init_ctrl (freq timeSetUp : Nat) (s : SysTick) (x : Run)
    (hacc : HAL_SYSTICK_External_Init freq timeSetUp s = .returned x) :
    x.st.CTRL = SysTick_CTRL_ENABLE_Msk ||| SysTick_CTRL_TICKINT_Msk ∧
    x.st.CTRL &&& SysTick_CTRL_CLKSOURCE_Msk = 0 ∧
    x.st.CTRL &&& SysTick_CTRL_ENABLE_Msk = SysTick_CTRL_ENABLE_Msk ∧
    x.st.CTRL &&& SysTick_CTRL_TICKINT_Msk = SysTick_CTRL_TICKINT_Msk ∧
    (∀ i, x.st.CTRL.testBit i = decide (i = 0 ∨ i = 1)) := by
  simp only [HAL_SYSTICK_External_Init] at hacc
  split_ifs at hacc
  injection hacc with hx
  subst hx
  have h3 : (Run.write (Run.write (Run.write (Run.write (Run.start s) .CTRL 0) .CTRL
      ((Run.write (Run.start s) .CTRL 0).st.CTRL &&& u32not SysTick_CTRL_CLKSOURCE_Msk)) .LOAD
      (u32sub (u32mul (freq / 50000) timeSetUp) 1)) .CTRL
      (SysTick_CTRL_ENABLE_Msk ||| SysTick_CTRL_TICKINT_Msk)).st.CTRL = 3 := by
    simp [Run.write, SysTick.store, U32, SysTick_CTRL_ENABLE_Msk, SysTick_CTRL_TICKINT_Msk]
  simp only [] at h3 ⊢
  rw [h3]
  refine ⟨by decide, by decide, by decide, by decide, testBit_three⟩

/-- C6, instance: from a state whose `CTRL` has `CLKSOURCE` (and `COUNTFLAG`)
set, `HAL_SYSTICK_External_Init 5000000 10` returns with `CTRL = 3`. -/
theorem C6_external_init_ctrl_witness :
    ∃ x, HAL_SYSTICK_External_Init 5000000 10 staleState = .returned x ∧
      staleState.CTRL &&& SysTick_CTRL_CLKSOURCE_Msk = SysTick_CTRL_CLKSOURCE_Msk ∧
      x.st.CTRL = SysTick_CTRL_ENABLE_Msk ||| SysTick_CTRL_TICKINT_Msk ∧
      x.st.CTRL &&& SysTick_CTRL_CLKSOURCE_Msk = 0 :=
  ⟨_, rfl, by decide,
    (C6_external_init_ctrl 5000000 10 staleState _ rfl).1,
    (C6_external_init_ctrl 5000000 10 staleState _ rfl).2.1⟩

/-! ## C7: the external init does not reset `VAL` -/

/-- C7 (evaluation at the failing input): from a state with `VAL = 5`,
`HAL_SYSTICK_External_Init 5000000 10` returns with `VAL` still `5` and without
any store to `VAL`, whereas `HAL_SYSTICK_Internal_Init` on the same request
stores `0` to `VAL`. -/
theorem C7_external_init_keeps_val :
    (∃ x, HAL_SYSTICK_External_Init 5000000 10 staleState = .returned x ∧
      staleState.VAL = 5 ∧ x.st.VAL = 5 ∧ ∀ v, (Reg.VAL, v) ∉ x.trace) ∧
    (∃ y, HAL_SYSTICK_Internal_Init 5000000 10 staleState = .returned y ∧
      y.st.VAL = 0 ∧ (Reg.VAL, 0) ∈ y.trace) :=
  ⟨⟨_, rfl, by decide, by decide, by intro v; simp [Run.write, Run.start]⟩,
    ⟨_, rfl, by decide, by decide⟩⟩

/-! ## C8, C9: the two mode switches -/

/-- C8: for every state with a 32-bit `CTRL` and every `status`,
`HAL_SYSTICK_Interrupt_Config status` leaves `TICKINT` (bit 1 of `CTRL`) equal
to 1 if `status = ENABLE` and 0 otherwise, and leaves every other bit of
`CTRL`, the registers `LOAD` and `VAL` and the registered callback unchanged. -/
theorem C8_interrupt_config_frame (status : MODE) (s : SysTick) (hs : s.CTRL < 2 ^ 32) :
    (HAL_SYSTICK_Interrupt_Config status s).CTRL.testBit 1 = decide (status = ENABLE) ∧
    (∀ i, i ≠ 1 →
      (HAL_SYSTICK_Interrupt_Config status s).CTRL.testBit i = s.CTRL.testBit i) ∧
    (HAL_SYSTICK_Interrupt_Config status s).LOAD = s.LOAD ∧
    (HAL_SYSTICK_Interrupt_Config status s).VAL = s.VAL ∧
    (HAL_SYSTICK_Interrupt_Config status s).SysTick_Interrupt_CallBack =
      s.SysTick_Interrupt_CallBack := by
  have hs' : s.CTRL < U32 := hs
  unfold HAL_SYSTICK_Interrupt_Config
  split_ifs with h
  · refine ⟨?_, ?_, rfl, rfl, rfl⟩
    · show ((s.CTRL ||| 1 <<< 1) % U32).testBit 1 = _
      rw [set_bit_frame s.CTRL 1 1 hs' (by norm_num)]; simp [h]
    · intro i hi
      show ((s.CTRL ||| 1 <<< 1) % U32).testBit i = _
      rw [set_bit_frame s.CTRL 1 i hs' (by norm_num)]; simp [hi]
  · refine ⟨?_, ?_, rfl, rfl, rfl⟩
    · show ((s.CTRL &&& u32not (1 <<< 1)) % U32).testBit 1 = _
      rw [clear_bit_frame s.CTRL 1 1 hs' (by norm_num)]; simp [h]
    · intro i hi
      show ((s.CTRL &&& u32not (1 <<< 1)) % U32).testBit i = _
      rw [clear_bit_frame s.CTRL 1 i hs' (by norm_num)]; simp [hi]

/-- C8, instance: disabling the interrupt in a state with `CTRL = 0x10007`
clears bit 1 only. -/
theorem C8_interrupt_config_frame_witness :
    staleState.CTRL < 2 ^ 32 ∧
    (HAL_SYSTICK_Interrupt_Config DISABLE staleState).CTRL = 0x10005 ∧
    (HAL_SYSTICK_Interrupt_Config DISABLE staleState).CTRL.testBit 1 =
      decide (DISABLE = ENABLE) ∧
    (∀ i, i ≠ 1 → (HAL_SYSTICK_Interrupt_Config DISABLE staleState).CTRL.testBit i =
      staleState.CTRL.testBit i) :=
  ⟨by decide, by decide,
    (C8_interrupt_config_frame DISABLE staleState (by decide)).1,
    (C8_interrupt_config_frame DISABLE staleState (by decide)).2.1⟩

/-- C9: for every state with a 32-bit `CTRL` and every `status`,
`HAL_SYSTICK_Mode status` leaves `ENABLE` (bit 0 of `CTRL`) equal to 1 if
`status = ENABLE` and 0 otherwise, and leaves every other bit of `CTRL`, the
registers `LOAD` and `VAL` and the registered callback unchanged. -/
theorem C9_mode_frame (status : MODE) (s : SysTick) (hs : s.CTRL < 2 ^ 32) :
    (HAL_SYSTICK_Mode status s).CTRL.testBit 0 = decide (status = ENABLE) ∧
    (∀ i, i ≠ 0 → (HAL_SYSTICK_Mode status s).CTRL.testBit i = s.CTRL.testBit i) ∧
    (HAL_SYSTICK_Mode status s).LOAD = s.LOAD ∧
    (HAL_SYSTICK_Mode status s).VAL = s.VAL ∧
    (HAL_SYSTICK_Mode status s).SysTick_Interrupt_CallBack =
      s.SysTick_Interrupt_CallBack := by
  have hs' : s.CTRL < U32 := hs
  unfold HAL_SYSTICK_Mode
  split_ifs with h
  · refine ⟨?_, ?_, rfl, rfl, rfl⟩
    · show ((s.CTRL ||| 1 <<< 0) % U32).testBit 0 = _
      rw [set_bit_frame s.CTRL 0 0 hs' (by norm_num)]; simp [h]
    · intro i hi
      show ((s.CTRL ||| 1 <<< 0) % U32).testBit i = _
      rw [set_bit_frame s.CTRL 0 i hs' (by norm_num)]; simp [hi]
  · refine ⟨?_, ?_, rfl, rfl, rfl⟩
    · show ((s.CTRL &&& u32not (1 <<< 0)) % U32).testBit 0 = _
      rw [clear_bit_frame s.CTRL 0 0 hs' (by norm_num)]; simp [h]
    · intro i hi
      show ((s.CTRL &&& u32not (1 <<< 0)) % U32).testBit i = _
      rw [clear_bit_frame s.CTRL 0 i hs' (by norm_num)]; simp [hi]

/-- C9, instance: stopping the counter in a state with `CTRL = 0x10007` clears
bit 0 only. -/
theorem C9_mode_frame_witness :
    staleState.CTRL < 2 ^ 32 ∧
    (HAL_SYSTICK_Mode DISABLE staleState).CTRL = 0x10006 ∧
    (HAL_SYSTICK_Mode DISABLE staleState).CTRL.testBit 0 = decide (DISABLE = ENABLE) ∧
    (∀ i, i ≠ 0 → (HAL_SYSTICK_Mode DISABLE staleState).CTRL.testBit i =
      staleState.CTRL.testBit i) :=
  ⟨by decide, by decide,
    (C9_mode_frame DISABLE staleState (by decide)).1,
    (C9_mode_frame DISABLE staleState (by decide)).2.1⟩

/-! ## C10: the expiry flag -/

/-- Value of `HAL_SYSTICK_Get_Flag` in terms of bit 16 of `CTRL`. -/
theorem get_flag_eq (s : SysTick) :
    HAL_SYSTICK_Get_Flag s = if s.CTRL.testBit 16 then 1 else 0 := by
  simp only [HAL_SYSTICK_Get_Flag, SysTick_CTRL_COUNTFLAG_Pos, Nat.and_one_is_mod,
    Nat.shiftRight_eq_div_pow, Nat.testBit_to_div_mod]
  split_ifs with h
  · simpa using h
  · have := Nat.mod_two_eq_zero_or_one (s.CTRL / 2 ^ 16)
    simp at h
    omega

/-- C10: `HAL_SYSTICK_Get_Flag` returns exactly bit 16 (`COUNTFLAG`) of `CTRL`:
the result is 0 or 1, it is 1 if and only if that bit is set, and two states
that agree on that bit give the same result whatever their other `CTRL` bits,
`LOAD` and `VAL` are. -/
theorem C10_get_flag_countflag (s : SysTick) :
    HAL_SYSTICK_Get_Flag s = (if s.CTRL.testBit 16 then 1 else 0) ∧
    (HAL_SYSTICK_Get_Flag s = 0 ∨ HAL_SYSTICK_Get_Flag s = 1) ∧
    (HAL_SYSTICK_Get_Flag s = 1 ↔ s.CTRL.testBit 16 = true) ∧
    (∀ t : SysTick, t.CTRL.testBit 16 = s.CTRL.testBit 16 →
      HAL_SYSTICK_Get_Flag t = HAL_SYSTICK_Get_Flag s) := by
  refine ⟨get_flag_eq s, ?_, ?_, ?_⟩
  · rw [get_flag_eq]; split_ifs <;> simp
  · rw [get_flag_eq]; split_ifs with h <;> simp [h]
  · intro t ht
    rw [get_flag_eq, get_flag_eq, ht]

/-! ## C11, C12: callback registration and dispatch -/

/-- C11: for every callback `cb` and every prior driver state, whatever callback
it had registered, after `HAL_SYSTICK_Set_Interrupt_Callback cb` one entry of
`SysTick_Handler` invokes `cb` exactly once and nothing else, and `n` entries
invoke `cb` exactly `n` times and nothing else. -/
theorem C11_callback_dispatch (cb : Nat) (s : SysTick) :
    SysTick_Handler (HAL_SYSTICK_Set_Interrupt_Callback (some cb) s) = some [cb] ∧
    (∀ n, handlerRuns n (HAL_SYSTICK_Set_Interrupt_Callback (some cb) s) =
      some (List.replicate n cb)) ∧
    (∀ n, (List.replicate n cb).count cb = n ∧ ∀ other ∈ List.replicate n cb, other = cb) := by
  refine ⟨rfl, ?_, ?_⟩
  · intro n
    induction n with
    | zero => rfl
    | succ k ih =>
      simp only [handlerRuns, ih]
      simp [SysTick_Handler, HAL_SYSTICK_Set_Interrupt_Callback, List.replicate_succ]
  · intro n
    refine ⟨by simp, ?_⟩
    intro other h
    exact (List.mem_replicate.mp h).2

/-- C12 (evaluation at the failing input): with no callback registered, in a
freshly started driver (`SysTick_Interrupt_CallBack = NULL`) as well as after
`HAL_SYSTICK_Set_Interrupt_Callback NULL`, `SysTick_Handler` calls through the
null pointer. -/
theorem C12_handler_calls_null :
    SysTick_Handler
      { CTRL := 0, LOAD := 0, VAL := 0, SysTick_Interrupt_CallBack := none } = none ∧
    staleState.SysTick_Interrupt_CallBack = some 1 ∧
    SysTick_Handler (HAL_SYSTICK_Set_Interrupt_Callback none staleState) = none ∧
    handlerRuns 1 (HAL_SYSTICK_Set_Interrupt_Callback none staleState) = none := by
  decide

/-! ## C13: the two maximum-period checks differ -/

/-- C13: the two maximum-period computations are not equivalent: at
`f = 48,000,000` and `p = 1` the internal check `p ≤ 2^24 / (f / 1000)` holds and
`HAL_SYSTICK_Internal_Init` returns, while the external check
`p ≤ 2^24 / f * 1000` fails and `HAL_SYSTICK_External_Init` ends in the error
loop, from every state. -/
theorem C13_max_period_checks_differ :
    ∃ f p, 1000 ≤ f ∧ p ≤ 2 ^ 24 / (f / 1000) ∧ ¬ p ≤ 2 ^ 24 / f * 1000 ∧
      (∀ s, ∃ x, HAL_SYSTICK_Internal_Init f p s = .returned x) ∧
      (∀ s, HAL_SYSTICK_External_Init f p s = .halted (Run.start s)) := by
  refine ⟨48000000, 1, by decide, by decide, by decide, ?_, ?_⟩
  · intro s
    exact ⟨_, internal_returned 48000000 1 s (by decide) (by decide)⟩
  · intro s
    exact (external_halted_iff 48000000 1 s (by decide)).2 (by decide)

/-! ## C14: order of the register stores -/

/-- C14 (as stated, refuted): in `HAL_SYSTICK_Internal_Init 48000000 100` the
stores are `CTRL = 0`, `LOAD = 95999`, `VAL = 0`, `CTRL = 7`: `CLKSOURCE` is
still 0 after each of the first three stores, so the internal clock source is
selected by the last store, after the `LOAD` write and not before it. -/
theorem C14_internal_selects_clock_last :
    ∃ x, HAL_SYSTICK_Internal_Init 48000000 100 staleState = .returned x ∧
      x.trace = [(.CTRL, 0), (.LOAD, 95999), (.VAL, 0), (.CTRL, 7)] ∧
      (∀ t ∈ (statesAfter staleState x.trace).dropLast,
        t.CTRL &&& SysTick_CTRL_CLKSOURCE_Msk = 0) ∧
      7 &&& SysTick_CTRL_CLKSOURCE_Msk = SysTick_CTRL_CLKSOURCE_Msk :=
  ⟨_, rfl, by decide, by decide, by decide⟩

/-- C14 (amended): for every accepted request, `HAL_SYSTICK_Internal_Init`
performs exactly the stores `CTRL = 0`, `LOAD = reload`, `VAL = 0`,
`CTRL = CLKSOURCE | ENABLE | TICKINT` in this order, so the internal clock
source is selected by the last store together with `ENABLE` and `TICKINT`.
The stores of `HAL_SYSTICK_External_Init` to `CTRL` and `LOAD` are exactly
`CTRL = 0`, `CTRL = CTRL & ~CLKSOURCE`, `LOAD = reload`,
`CTRL = ENABLE | TICKINT` in this order; its first store is `CTRL = 0`, its last
store is `CTRL = ENABLE | TICKINT`, only `CTRL` is stored before the `LOAD`
write, and no store puts a non-zero value in `VAL`.  In both functions `ENABLE`
and `TICKINT` read 0 after every store but the last and are set by the last
store; in the internal one `CLKSOURCE` also reads 0 after every store but the
last, in the external one after every store. -/
theorem C14_init_store_order (clock timeSetUp : Nat) (s : SysTick) (x : Run) :
    (HAL_SYSTICK_Internal_Init clock timeSetUp s = .returned x →
      x.trace = [(.CTRL, 0), (.LOAD, u32sub (u32mul (clock / 50000) timeSetUp) 1),
        (.VAL, 0),
        (.CTRL, SysTick_CTRL_CLKSOURCE_Msk ||| SysTick_CTRL_ENABLE_Msk |||
          SysTick_CTRL_TICKINT_Msk)] ∧
      (statesAfter s x.trace).getLast? = some x.st ∧
      (∀ t ∈ (statesAfter s x.trace).dropLast,
        t.CTRL &&& SysTick_CTRL_ENABLE_Msk = 0 ∧ t.CTRL &&& SysTick_CTRL_TICKINT_Msk = 0 ∧
        t.CTRL &&& SysTick_CTRL_CLKSOURCE_Msk = 0) ∧
      x.st.CTRL = SysTick_CTRL_CLKSOURCE_Msk ||| SysTick_CTRL_ENABLE_Msk |||
        SysTick_CTRL_TICKINT_Msk) ∧
    (HAL_SYSTICK_External_Init clock timeSetUp s = .returned x →
      x.trace.head? = some (.CTRL, 0) ∧
      x.trace.getLast? = some (.CTRL, SysTick_CTRL_ENABLE_Msk ||| SysTick_CTRL_TICKINT_Msk) ∧
      x.trace.filter (fun e => decide (e.1 ≠ Reg.VAL)) =
        [(.CTRL, 0), (.CTRL, 0 &&& u32not SysTick_CTRL_CLKSOURCE_Msk),
          (.LOAD, u32sub (u32mul (clock / 50000) timeSetUp) 1),
          (.CTRL, SysTick_CTRL_ENABLE_Msk ||| SysTick_CTRL_TICKINT_Msk)] ∧
      (∀ e ∈ x.trace.takeWhile (fun e => decide (e.1 ≠ Reg.LOAD)), e.1 = Reg.CTRL) ∧
      (∀ v, (Reg.VAL, v) ∈ x.trace → v = 0) ∧
      (statesAfter s x.trace).getLast? = some x.st ∧
      (∀ t ∈ (statesAfter s x.trace).dropLast,
        t.CTRL &&& SysTick_CTRL_ENABLE_Msk = 0 ∧ t.CTRL &&& SysTick_CTRL_TICKINT_Msk = 0) ∧
      (∀ t ∈ statesAfter s x.trace, t.CTRL &&& SysTick_CTRL_CLKSOURCE_Msk = 0) ∧
      x.st.CTRL = SysTick_CTRL_ENABLE_Msk ||| SysTick_CTRL_TICKINT_Msk) := by
  have hlt : u32sub (u32mul (clock / 50000) timeSetUp) 1 < 4294967296 := by
    simp only [u32sub, U32]; omega
  have hr : u32sub (u32mul (clock / 50000) timeSetUp) 1 % 4294967296 =
      u32sub (u32mul (clock / 50000) timeSetUp) 1 := Nat.mod_eq_of_lt hlt
  have h34 : 3 &&& 4 = 0 := by decide
  constructor
  · intro hacc
    simp only [HAL_SYSTICK_Internal_Init] at hacc
    split_ifs at hacc
    injection hacc with hx
    subst hx
    simp [Run.write, Run.start, statesAfter, SysTick.store, hr, hlt, U32,
      SysTick_CTRL_CLKSOURCE_Msk, SysTick_CTRL_ENABLE_Msk, SysTick_CTRL_TICKINT_Msk]
  · intro hacc
    simp only [HAL_SYSTICK_External_Init] at hacc
    split_ifs at hacc
    injection hacc with hx
    subst hx
    simp [Run.write, Run.start, statesAfter, SysTick.store, hr, hlt, h34, U32, u32not,
      SysTick_CTRL_CLKSOURCE_Msk, SysTick_CTRL_ENABLE_Msk, SysTick_CTRL_TICKINT_Msk,
      List.filter, List.takeWhile]

/-- C14 (amended), instance: both init functions on accepted requests from a
state with stale registers. -/
theorem C14_init_store_order_witness :
    (∃ x, HAL_SYSTICK_Internal_Init 48000000 100 staleState = .returned x ∧
      x.trace = [(.CTRL, 0), (.LOAD, u32sub (u32mul (48000000 / 50000) 100) 1), (.VAL, 0),
        (.CTRL, SysTick_CTRL_CLKSOURCE_Msk ||| SysTick_CTRL_ENABLE_Msk |||
          SysTick_CTRL_TICKINT_Msk)]) ∧
    (∃ y, HAL_SYSTICK_External_Init 5000000 10 staleState = .returned y ∧
      y.trace.filter (fun e => decide (e.1 ≠ Reg.VAL)) =
        [(.CTRL, 0), (.CTRL, 0 &&& u32not SysTick_CTRL_CLKSOURCE_Msk),
          (.LOAD, u32sub (u32mul (5000000 / 50000) 10) 1),
          (.CTRL, SysTick_CTRL_ENABLE_Msk ||| SysTick_CTRL_TICKINT_Msk)]) :=
  ⟨⟨_, rfl, ((C14_init_store_order 48000000 100 staleState _).1 rfl).1⟩,
    ⟨_, rfl, ((C14_init_store_order 5000000 10 staleState _).2 rfl).2.2.1⟩⟩

/-! ## C15: a rejected request stores nothing -/

/-- C15: whenever `HAL_SYSTICK_Internal_Init` or `HAL_SYSTICK_External_Init`
ends in the error loop, no store has been performed: `CTRL`, `LOAD`, `VAL` and
the registered callback hold their prior values there. -/
theorem C15_rejection_stores_nothing (clock timeSetUp : Nat) (s : SysTick) (x : Run) :
    (HAL_SYSTICK_Internal_Init clock timeSetUp s = .halted x →
      x.trace = [] ∧ x.st = s ∧ x.st.CTRL = s.CTRL ∧ x.st.LOAD = s.LOAD ∧
      x.st.VAL = s.VAL ∧ x.st.SysTick_Interrupt_CallBack = s.SysTick_Interrupt_CallBack) ∧
    (HAL_SYSTICK_External_Init clock timeSetUp s = .halted x →
      x.trace = [] ∧ x.st = s ∧ x.st.CTRL = s.CTRL ∧ x.st.LOAD = s.LOAD ∧
      x.st.VAL = s.VAL ∧ x.st.SysTick_Interrupt_CallBack = s.SysTick_Interrupt_CallBack) := by
  constructor
  · intro h
    simp only [HAL_SYSTICK_Internal_Init] at h
    split_ifs at h
    injection h with hx
    subst hx
    simp [Run.start]
  · intro h
    simp only [HAL_SYSTICK_External_Init] at h
    split_ifs at h
    injection h with hx
    subst hx
    simp [Run.start]

/-- C15, instance: `HAL_SYSTICK_Internal_Init` with `SystemCoreClock = 48,000,000`
rejects `timeSetUp = 350` and `HAL_SYSTICK_External_Init 50000000` rejects
`timeSetUp = 10`; in both cases the stale registers are untouched. -/
theorem C15_rejection_stores_nothing_witness :
    (∃ x, HAL_SYSTICK_Internal_Init 48000000 350 staleState = .halted x ∧
      x.trace = [] ∧ x.st = staleState) ∧
    (∃ y, HAL_SYSTICK_External_Init 50000000 10 staleState = .halted y ∧
      y.trace = [] ∧ y.st = staleState) :=
  ⟨⟨_, rfl, ((C15_rejection_stores_nothing 48000000 350 staleState _).1 rfl).1,
      ((C15_rejection_stores_nothing 48000000 350 staleState _).1 rfl).2.1⟩,
    ⟨_, rfl, ((C15_rejection_stores_nothing 50000000 10 staleState _).2 rfl).1,
      ((C15_rejection_stores_nothing 50000000 10 staleState _).2 rfl).2.1⟩⟩

/-! ## C16: no wrap-around in the reload of an accepted request -/

/-- Reload of the internal path: for a period within the bound,
`(clock / 50000) * p` is at most `2^24 / 50`. -/
theorem internal_reload_le (clock p : Nat)
    (hp : p ≤ 16777216 / (clock / 1000)) : (clock / 50000) * p ≤ 335544 := by
  have hk : clock / 50000 = clock / 1000 / 50 := by
    rw [Nat.div_div_eq_div_mul]
  have h50 : clock / 1000 / 50 * 50 ≤ clock / 1000 := Nat.div_mul_le_self _ _
  have hM : 16777216 / (clock / 1000) * (clock / 1000) ≤ 16777216 := Nat.div_mul_le_self _ _
  have h1 : clock / 1000 / 50 * p * 50 ≤ 16777216 := by
    calc clock / 1000 / 50 * p * 50 = (clock / 1000 / 50 * 50) * p := by ring
      _ ≤ (clock / 1000) * p := Nat.mul_le_mul_right _ h50
      _ ≤ (clock / 1000) * (16777216 / (clock / 1000)) := Nat.mul_le_mul_left _ hp
      _ = 16777216 / (clock / 1000) * (clock / 1000) := by ring
      _ ≤ 16777216 := hM
  rw [hk]
  omega

/-- Reload of the external path: for a period within the bound,
`(freq / 50000) * p` is at most `2^24 / 50`. -/
theorem external_reload_le (freq p : Nat)
    (hp : p ≤ 16777216 / freq * 1000) : (freq / 50000) * p ≤ 335544 := by
  have h5 : freq / 50000 * 50000 ≤ freq := Nat.div_mul_le_self _ _
  have hq : 16777216 / freq * freq ≤ 16777216 := Nat.div_mul_le_self _ _
  have h1 : freq / 50000 * (16777216 / freq) * 50000 ≤ 16777216 := by
    calc freq / 50000 * (16777216 / freq) * 50000
        = (freq / 50000 * 50000) * (16777216 / freq) := by ring
      _ ≤ freq * (16777216 / freq) := Nat.mul_le_mul_right _ h5
      _ = 16777216 / freq * freq := by ring
      _ ≤ 16777216 := hq
  have h2 : freq / 50000 * p ≤ freq / 50000 * (16777216 / freq * 1000) :=
    Nat.mul_le_mul_left _ hp
  have h3 : freq / 50000 * (16777216 / freq * 1000) =
      freq / 50000 * (16777216 / freq) * 1000 := by ring
  omega

/-- C16: for every clock frequency of at least 50000 Hz and every period of at
least 1, the internal init accepts the period exactly when
`period ≤ 2^24 / (clock / 1000)` and the external init exactly when
`period ≤ 2^24 / clock * 1000`; for an accepted period the product
`(clock / 50000) * period` is at least 1 and below `2^32`, so the reload
`(clock / 50000) * period - 1` neither wraps below zero nor overflows, it is the
value stored in `LOAD`, and `0 ≤ LOAD ≤ 2^24 - 1`. -/
theorem C16_reload_in_range (clock period : Nat) (s : SysTick)
    (hclk : 50000 ≤ clock) (hperiod : 1 ≤ period) :
    ((∃ x, HAL_SYSTICK_Internal_Init clock period s = .returned x) ↔
      period ≤ 2 ^ 24 / (clock / 1000)) ∧
    (∀ x, HAL_SYSTICK_Internal_Init clock period s = .returned x →
      1 ≤ (clock / 50000) * period ∧ (clock / 50000) * period < 2 ^ 32 ∧
      x.st.LOAD = (clock / 50000) * period - 1 ∧ x.st.LOAD ≤ 2 ^ 24 - 1) ∧
    ((∃ x, HAL_SYSTICK_External_Init clock period s = .returned x) ↔
      period ≤ 2 ^ 24 / clock * 1000) ∧
    (∀ x, HAL_SYSTICK_External_Init clock period s = .returned x →
      1 ≤ (clock / 50000) * period ∧ (clock / 50000) * period < 2 ^ 32 ∧
      x.st.LOAD = (clock / 50000) * period - 1 ∧ x.st.LOAD ≤ 2 ^ 24 - 1) := by
  norm_num only
  have ha : 1 ≤ clock / 50000 := by omega
  have hpos : 1 ≤ (clock / 50000) * period := Nat.mul_pos ha hperiod
  have hMi : 16777216 / (clock / 1000) ≤ 335544 := by
    have h50 : 50 ≤ clock / 1000 := by omega
    have := Nat.div_le_div_left h50 (by norm_num : 0 < 50) (a := 16777216)
    omega
  have hint := internal_halted_iff clock period s (by omega)
  rw [u32ToFloat_gt_iff_of_small _ _ (by omega)] at hint
  have hMe : 16777216 / clock ≤ 335 := by
    have := Nat.div_le_div_left hclk (by norm_num : 0 < 50000) (a := 16777216)
    omega
  have hmod : (16777216 / clock * 1000) % 4294967296 = 16777216 / clock * 1000 := by omega
  have hext := external_halted_iff clock period s (by omega)
  rw [hmod, u32ToFloat_gt_iff_of_small _ _ (by omega)] at hext
  have hload : ∀ y, 1 ≤ y → y ≤ 335544 →
      (y + 4294967295) % 4294967296 = y - 1 ∧ (y + 4294967295) % 4294967296 ≤ 16777215 := by
    intro y h1 h2
    omega
  refine ⟨⟨?_, ?_⟩, ?_, ⟨?_, ?_⟩, ?_⟩
  · rintro ⟨x, hx⟩
    by_contra hgt
    rw [hint.2 (by omega)] at hx
    cases hx
  · intro hle
    exact ⟨_, internal_returned clock period s (by omega)
      (by rw [u32ToFloat_gt_iff_of_small _ _ (by omega)]; omega)⟩
  · intro x hx
    have hle : period ≤ 16777216 / (clock / 1000) := by
      by_contra hgt
      rw [hint.2 (by omega)] at hx
      cases hx
    have hb := internal_reload_le clock period hle
    rw [internal_returned clock period s (by omega)
      (by rw [u32ToFloat_gt_iff_of_small _ _ (by omega)]; omega)] at hx
    injection hx with hx
    subst hx
    have := hload _ hpos hb
    simp only [Run.write, SysTick.store, u32_reload_eq, U32]
    norm_num only
    omega
  · rintro ⟨x, hx⟩
    by_contra hgt
    rw [hext.2 (by omega)] at hx
    cases hx
  · intro hle
    exact ⟨_, external_returned clock period s (by omega)
      (by rw [hmod, u32ToFloat_gt_iff_of_small _ _ (by omega)]; omega)⟩
  · intro x hx
    have hle : period ≤ 16777216 / clock * 1000 := by
      by_contra hgt
      rw [hext.2 (by omega)] at hx
      cases hx
    have hb := external_reload_le clock period hle
    rw [external_returned clock period s (by omega)
      (by rw [hmod, u32ToFloat_gt_iff_of_small _ _ (by omega)]; omega)] at hx
    injection hx with hx
    subst hx
    have := hload _ hpos hb
    simp only [Run.write, SysTick.store, u32_reload_eq, U32]
    norm_num only
    omega

/-- C16, instance: at 48 MHz the internal init accepts `period = 100` and stores
`LOAD = 95999`; at 5 MHz the external init accepts `period = 10` and stores
`LOAD = 999`. -/
theorem C16_reload_in_range_witness :
    50000 ≤ 48000000 ∧ 1 ≤ 100 ∧
    (∃ x, HAL_SYSTICK_Internal_Init 48000000 100 staleState = .returned x ∧
      x.st.LOAD = (48000000 / 50000) * 100 - 1 ∧ x.st.LOAD ≤ 2 ^ 24 - 1) ∧
    (∃ y, HAL_SYSTICK_External_Init 5000000 10 staleState = .returned y ∧
      y.st.LOAD = (5000000 / 50000) * 10 - 1 ∧ y.st.LOAD ≤ 2 ^ 24 - 1) :=
  ⟨by decide, by decide,
    ⟨_, rfl,
      ((C16_reload_in_range 48000000 100 staleState (by decide) (by decide)).2.1 _ rfl).2.2⟩,
    ⟨_, rfl,
      ((C16_reload_in_range 5000000 10 staleState (by decide) (by decide)).2.2.2 _ rfl).2.2⟩⟩

/-! ## C17: the two mode switches commute and are idempotent -/

/-- Bits of `CTRL` after `CTRL |= 1 << k`. -/
theorem set_bit_bits (x k i : Nat) :
    ((x ||| 1 <<< k) % U32).testBit i =
      (decide (i < 32) && (x.testBit i || decide (i = k))) := by
  rw [U32, Nat.testBit_mod_two_pow, Nat.testBit_or, Nat.one_shiftLeft, Nat.testBit_two_pow]
  simp [eq_comm]

/-- Bits of `CTRL` after `CTRL &= ~(1 << k)`. -/
theorem clear_bit_bits (x k i : Nat) (hk : k < 32) :
    ((x &&& u32not (1 <<< k)) % U32).testBit i =
      (decide (i < 32) && (x.testBit i && decide (i ≠ k))) := by
  rw [U32, Nat.testBit_mod_two_pow, Nat.testBit_and, testBit_u32not_mask k i hk]
  cases x.testBit i <;> cases decide (i < 32) <;> simp

/-- Bits of `CTRL` after `HAL_SYSTICK_Interrupt_Config`. -/
theorem interrupt_config_bits (a : MODE) (s : SysTick) (i : Nat) :
    (HAL_SYSTICK_Interrupt_Config a s).CTRL.testBit i =
      (decide (i < 32) &&
        (if a = ENABLE then (s.CTRL.testBit i || decide (i = 1))
         else (s.CTRL.testBit i && decide (i ≠ 1)))) := by
  unfold HAL_SYSTICK_Interrupt_Config
  split_ifs with h
  · exact set_bit_bits s.CTRL 1 i
  · exact clear_bit_bits s.CTRL 1 i (by norm_num)

/-- Bits of `CTRL` after `HAL_SYSTICK_Mode`. -/
theorem mode_bits (b : MODE) (s : SysTick) (i : Nat) :
    (HAL_SYSTICK_Mode b s).CTRL.testBit i =
      (decide (i < 32) &&
        (if b = ENABLE then (s.CTRL.testBit i || decide (i = 0))
         else (s.CTRL.testBit i && decide (i ≠ 0)))) := by
  unfold HAL_SYSTICK_Mode
  split_ifs with h
  · exact set_bit_bits s.CTRL 0 i
  · exact clear_bit_bits s.CTRL 0 i (by norm_num)

/-- Two driver states are equal when `CTRL` agrees bit by bit and the other
components agree. -/
theorem systick_ext (s t : SysTick) (hc : ∀ i, s.CTRL.testBit i = t.CTRL.testBit i)
    (hl : s.LOAD = t.LOAD) (hv : s.VAL = t.VAL)
    (hcb : s.SysTick_Interrupt_CallBack = t.SysTick_Interrupt_CallBack) : s = t := by
  cases s
  cases t
  simp only [SysTick.mk.injEq]
  exact ⟨Nat.eq_of_testBit_eq hc, hl, hv, hcb⟩

theorem interrupt_config_frame_rest (a : MODE) (s : SysTick) :
    (HAL_SYSTICK_Interrupt_Config a s).LOAD = s.LOAD ∧
    (HAL_SYSTICK_Interrupt_Config a s).VAL = s.VAL ∧
    (HAL_SYSTICK_Interrupt_Config a s).SysTick_Interrupt_CallBack =
      s.SysTick_Interrupt_CallBack := by
  unfold HAL_SYSTICK_Interrupt_Config
  split_ifs <;> exact ⟨rfl, rfl, rfl⟩

theorem mode_frame_rest (b : MODE) (s : SysTick) :
    (HAL_SYSTICK_Mode b s).LOAD = s.LOAD ∧
    (HAL_SYSTICK_Mode b s).VAL = s.VAL ∧
    (HAL_SYSTICK_Mode b s).SysTick_Interrupt_CallBack = s.SysTick_Interrupt_CallBack := by
  unfold HAL_SYSTICK_Mode
  split_ifs <;> exact ⟨rfl, rfl, rfl⟩

/-- C17: for every register state and all statuses `a` and `b`,
`HAL_SYSTICK_Interrupt_Config a` followed by `HAL_SYSTICK_Mode b` yields the
same state as `HAL_SYSTICK_Mode b` followed by `HAL_SYSTICK_Interrupt_Config a`,
and each of the two operations is idempotent. -/
theorem C17_mode_switches_commute (a b : MODE) (s : SysTick) :
    HAL_SYSTICK_Mode b (HAL_SYSTICK_Interrupt_Config a s) =
      HAL_SYSTICK_Interrupt_Config a (HAL_SYSTICK_Mode b s) ∧
    HAL_SYSTICK_Interrupt_Config a (HAL_SYSTICK_Interrupt_Config a s) =
      HAL_SYSTICK_Interrupt_Config a s ∧
    HAL_SYSTICK_Mode b (HAL_SYSTICK_Mode b s) = HAL_SYSTICK_Mode b s := by
  refine ⟨?_, ?_, ?_⟩
  · apply systick_ext
    · intro i
      simp only [mode_bits, interrupt_config_bits]
      by_cases ha : a = ENABLE <;> by_cases hb : b = ENABLE <;>
        by_cases h0 : i = 0 <;> by_cases h1 : i = 1 <;>
        cases s.CTRL.testBit i <;> cases decide (i < 32) <;> simp_all
    · rw [(mode_frame_rest _ _).1, (interrupt_config_frame_rest _ _).1,
        (interrupt_config_frame_rest _ _).1, (mode_frame_rest _ _).1]
    · rw [(mode_frame_rest _ _).2.1, (interrupt_config_frame_rest _ _).2.1,
        (interrupt_config_frame_rest _ _).2.1, (mode_frame_rest _ _).2.1]
    · rw [(mode_frame_rest _ _).2.2, (interrupt_config_frame_rest _ _).2.2,
        (interrupt_config_frame_rest _ _).2.2, (mode_frame_rest _ _).2.2]
  · apply systick_ext
    · intro i
      simp only [interrupt_config_bits]
      by_cases ha : a = ENABLE <;> by_cases h1 : i = 1 <;>
        cases s.CTRL.testBit i <;> cases decide (i < 32) <;> simp_all
    · rw [(interrupt_config_frame_rest _ _).1]
    · rw [(interrupt_config_frame_rest _ _).2.1]
    · rw [(interrupt_config_frame_rest _ _).2.2]
  · apply systick_ext
    · intro i
      simp only [mode_bits]
      by_cases hb : b = ENABLE <;> by_cases h0 : i = 0 <;>
        cases s.CTRL.testBit i <;> cases decide (i < 32) <;> simp_all
    · rw [(mode_frame_rest _ _).1]
    · rw [(mode_frame_rest _ _).2.1]
    · rw [(mode_frame_rest _ _).2.2]

end HALSysTick
